import Mathlib

/-!
Shallow embedding of the carbon-bucket file-storage service
(`src/main.rs`): a warp HTTP server exposing upload, list, download and
delete over a single flat storage directory.

The filesystem state under the storage root is modelled as an
association list from file names to entries (regular file with byte
content, or directory).  Each handler becomes a pure function from its
arguments and the store to an `Except Rejection Response` together with
the resulting store.  Warp's rejection tokens become the `Rejection`
inductive and `handle_rejection` the translator at `main.rs:201-219`.
-/

/-- A byte sequence (request/file body), each element a byte value. -/
abbrev Bytes := List Nat

/-- A directory entry inside the storage root: a regular file with its
content, or a subdirectory. -/
inductive Entry : Type where
  | file (content : Bytes)
  | dir
deriving DecidableEq, Repr

/-- The storage root's contents: an association list from names to
entries (the filesystem keeps names unique; well-formedness is
`Store.WF`). -/
abbrev Store := List (String × Entry)

/-- Filesystem name lookup: the entry stored under name `n`, if any. -/
def Store.lookup : Store → String → Option Entry
  | [], _ => none
  | (k, e) :: rest, n => if k = n then some e else Store.lookup rest n

/-- Create-or-truncate at name `n` (the effect of `fs::File::create`
followed by `write_all`): any previous entry under `n` is replaced. -/
def Store.set (s : Store) (n : String) (e : Entry) : Store :=
  s.filter (fun p => p.1 != n) ++ [(n, e)]

/-- Remove the entry under name `n` (the effect of `fs::remove_file`). -/
def Store.erase (s : Store) (n : String) : Store :=
  s.filter (fun p => p.1 != n)

/-- Well-formed store: names are unique, as the filesystem enforces. -/
def Store.WF (s : Store) : Prop := (s.map Prod.fst).Nodup

instance (s : Store) : Decidable (Store.WF s) :=
  inferInstanceAs (Decidable (s.map Prod.fst).Nodup)

/-- An HTTP response body: plain text (handler messages) or raw bytes
(a downloaded file's content). -/
inductive Body : Type where
  | text (s : String)
  | data (b : Bytes)
deriving DecidableEq, Repr

/-- An HTTP response: status code, body, and the optional
Content-Disposition header set by the download handler. -/
structure Response : Type where
  status : Nat
  body : Body
  contentDisposition : Option String
deriving DecidableEq, Repr

/-- Warp rejection tokens distinguished by `handle_rejection`
(`main.rs:201-219`): route not matched, the custom `FileError`, a body
deserialization error, payload over the content-length limit, and any
other rejection. -/
inductive Rejection : Type where
  | notFoundRoute
  | fileError
  | bodyDeserialize
  | payloadTooLarge
  | other
deriving DecidableEq, Repr

/-- The upload content-length limit from `main.rs:29`:
`100 * 1024 * 1024` bytes (100 MiB). -/
def UPLOAD_LIMIT : Nat := 100 * 1024 * 1024

/-- `upload_file` (`main.rs:76-99`): joins the storage root with the
name, creates-or-truncates the file there and writes the whole body.
`File::create` fails when a directory occupies the target path, which
rejects with `FileError`; otherwise the store is updated and a 200 text
confirmation is returned. -/
def upload_file (bytes : Bytes) (filename : String) (s : Store) :
    Except Rejection Response × Store :=
  match s.lookup filename with
  | some Entry.dir => (Except.error Rejection.fileError, s)
  | _ =>
      (Except.ok ⟨200, Body.text ("Successfully uploaded: " ++ filename), none⟩,
       s.set filename (Entry.file bytes))

/-- The upload route (`main.rs:27-33`): `warp::body::content_length_limit`
rejects bodies over `UPLOAD_LIMIT` with `PayloadTooLarge` before the
handler runs; otherwise the request reaches `upload_file`. -/
def upload_route (bytes : Bytes) (filename : String) (s : Store) :
    Except Rejection Response × Store :=
  if UPLOAD_LIMIT < bytes.length then (Except.error Rejection.payloadTooLarge, s)
  else upload_file bytes filename s

/-- One raw item yielded by `fs::read_dir` iteration: either a per-entry
I/O error (`entry.ok()` is `None`), or an entry carrying its name when
it is valid UTF-8 (`into_string().ok()`) and whether it is a regular
file (`path().is_file()`). -/
inductive DirItem : Type where
  | ioError
  | entry (utf8Name : Option String) (isFile : Bool)
deriving DecidableEq, Repr

/-- The per-entry closure of `list_files` (`main.rs:108-116`): keep the
name only when the entry iterated without error, is a regular file, and
its name decodes as UTF-8. -/
def dirItemName : DirItem → Option String
  | DirItem.ioError => none
  | DirItem.entry name isFile => if isFile then name else none

/-- The file-listing payload built at `main.rs:122-126`: the JSON object
with the sorted name array and its count. -/
structure FileListing : Type where
  files : List String
  count : Nat
deriving DecidableEq, Repr

/-- `list_files` (`main.rs:102-129`) over the result of `fs::read_dir`:
a failing directory read rejects with `FileError`; otherwise names are
collected through `dirItemName`, sorted ascending (`entries.sort()`),
and returned with their count. -/
def list_files_core (readDirResult : Except Unit (List DirItem)) :
    Except Rejection FileListing :=
  match readDirResult with
  | Except.error _ => Except.error Rejection.fileError
  | Except.ok items =>
      let entries := List.insertionSort (· ≤ ·) (items.filterMap dirItemName)
      Except.ok ⟨entries, entries.length⟩

/-- The raw directory items produced by enumerating an in-memory store:
every entry iterates without error and every name is valid UTF-8. -/
def storeDirItems (s : Store) : List DirItem :=
  s.map (fun p =>
    DirItem.entry (some p.1) (match p.2 with | Entry.file _ => true | Entry.dir => false))

/-- `list_files` applied to a store whose `read_dir` succeeds. -/
def list_files (s : Store) : Except Rejection FileListing :=
  list_files_core (Except.ok (storeDirItems s))

/-- Validity of one header-value character, after `http`'s
`HeaderValue::from_str` byte check (each byte must be `>= 32` and
`!= 127`, or be a tab).  Checking characters suffices: every byte of a
multi-byte UTF-8 char is `>= 0x80`, hence valid. -/
def isValidHeaderChar (c : Char) : Bool :=
  (decide (32 ≤ c.toNat) && c.toNat != 127) || c.toNat == 9

/-- Validity of a whole header value for `HeaderValue::from_str`. -/
def isValidHeaderValue (v : String) : Bool :=
  v.data.all isValidHeaderChar

/-- The Content-Disposition value built at `main.rs:163-164`:
`attachment; filename="<name>"` when that is a valid header value,
otherwise the static fallback `attachment`. -/
def contentDispositionValue (filename : String) : String :=
  let v := "attachment; filename=\"" ++ filename ++ "\""
  if isValidHeaderValue v then v else "attachment"

/-- `download_file` (`main.rs:132-168`): a missing path returns a 404
text response (a normal reply, not a rejection); a directory at the path
passes the existence check but the subsequent read fails, rejecting with
`FileError`; a regular file is read fully and returned with status 200
and the Content-Disposition header. -/
def download_file (filename : String) (s : Store) : Except Rejection Response :=
  match s.lookup filename with
  | none =>
      Except.ok ⟨404, Body.text ("File '" ++ filename ++ "' not found"), none⟩
  | some Entry.dir => Except.error Rejection.fileError
  | some (Entry.file contents) =>
      Except.ok ⟨200, Body.data contents, some (contentDispositionValue filename)⟩

/-- `delete_file` (`main.rs:171-193`): a missing path returns a 404 text
response; a directory passes the existence check but `fs::remove_file`
fails, rejecting with `FileError`; a regular file is removed and a 200
confirmation returned. -/
def delete_file (filename : String) (s : Store) :
    Except Rejection Response × Store :=
  match s.lookup filename with
  | none =>
      (Except.ok ⟨404, Body.text ("File '" ++ filename ++ "' not found"), none⟩, s)
  | some Entry.dir => (Except.error Rejection.fileError, s)
  | some (Entry.file _) =>
      (Except.ok ⟨200, Body.text ("File '" ++ filename ++ "' deleted successfully"), none⟩,
       s.erase filename)

/-- `handle_rejection` (`main.rs:201-219`): the error translator mapping
every rejection token to a status code and client-visible message. -/
def handle_rejection : Rejection → Nat × String
  | Rejection.notFoundRoute => (404, "Not Found")
  | Rejection.fileError => (500, "File operation error")
  | Rejection.bodyDeserialize => (400, "Invalid body")
  | Rejection.payloadTooLarge => (400, "Payload too large")
  | Rejection.other => (500, "Internal Server Error")

/-! ### Store lemmas -/

theorem Store.lookup_set_self (s : Store) (n : String) (e : Entry) :
    (s.set n e).lookup n = some e := by
  induction s with
  | nil => simp [Store.set, Store.lookup]
  | cons p t ih =>
      by_cases h : p.1 = n
      · simpa [Store.set, List.filter_cons, h] using ih
      · simpa [Store.set, List.filter_cons, h, Store.lookup] using ih

theorem Store.lookup_erase_self (s : Store) (n : String) :
    (s.erase n).lookup n = none := by
  induction s with
  | nil => simp [Store.erase, Store.lookup]
  | cons p t ih =>
      by_cases h : p.1 = n
      · simpa [Store.erase, List.filter_cons, h] using ih
      · simpa [Store.erase, List.filter_cons, h, Store.lookup] using ih

theorem Store.lookup_mem {s : Store} {n : String} {e : Entry}
    (h : s.lookup n = some e) : (n, e) ∈ s := by
  induction s with
  | nil => simp [Store.lookup] at h
  | cons p t ih =>
      obtain ⟨k, v⟩ := p
      by_cases hk : k = n
      · simp only [Store.lookup, hk, if_pos] at h
        injection h with h
        subst h
        subst hk
        exact List.mem_cons_self _ _
      · simp only [Store.lookup, hk, if_neg, not_false_iff] at h
        exact List.mem_cons_of_mem _ (ih h)

theorem Store.mem_lookup {s : Store} {n : String} {e : Entry}
    (hwf : s.WF) (h : (n, e) ∈ s) : s.lookup n = some e := by
  induction s with
  | nil => simp at h
  | cons p t ih =>
      rcases List.mem_cons.mp h with h₁ | h₂
      · subst h₁
        simp [Store.lookup]
      · have hk : p.1 ≠ n := by
          intro hkn
          have : p.1 ∈ t.map Prod.fst := by
            rw [hkn]
            exact List.mem_map_of_mem Prod.fst h₂
          exact (List.nodup_cons.mp hwf).1 this
        have ht : Store.WF t := (List.nodup_cons.mp hwf).2
        simp only [Store.lookup, hk, if_neg, not_false_iff]
        exact ih ht h₂

/-! ### Handler evaluation lemmas -/

theorem upload_file_ok (bytes : Bytes) (filename : String) (s : Store)
    (hdir : s.lookup filename ≠ some Entry.dir) :
    upload_file bytes filename s =
      (Except.ok ⟨200, Body.text ("Successfully uploaded: " ++ filename), none⟩,
       s.set filename (Entry.file bytes)) := by
  unfold upload_file
  cases hl : s.lookup filename with
  | none => rfl
  | some e =>
      cases e with
      | file b => rfl
      | dir => exact absurd hl hdir

theorem upload_route_ok (bytes : Bytes) (filename : String) (s : Store)
    (hsize : bytes.length ≤ UPLOAD_LIMIT) (hdir : s.lookup filename ≠ some Entry.dir) :
    upload_route bytes filename s =
      (Except.ok ⟨200, Body.text ("Successfully uploaded: " ++ filename), none⟩,
       s.set filename (Entry.file bytes)) := by
  unfold upload_route
  rw [if_neg (not_lt.mpr hsize)]
  exact upload_file_ok bytes filename s hdir

theorem download_file_of_file {s : Store} {N : String} {B : Bytes}
    (h : s.lookup N = some (Entry.file B)) :
    download_file N s =
      Except.ok ⟨200, Body.data B, some (contentDispositionValue N)⟩ := by
  unfold download_file
  rw [h]

theorem download_file_of_absent {s : Store} {N : String}
    (h : s.lookup N = none) :
    download_file N s =
      Except.ok ⟨404, Body.text ("File '" ++ N ++ "' not found"), none⟩ := by
  unfold download_file
  rw [h]

theorem delete_file_of_file {s : Store} {N : String} {B : Bytes}
    (h : s.lookup N = some (Entry.file B)) :
    delete_file N s =
      (Except.ok ⟨200, Body.text ("File '" ++ N ++ "' deleted successfully"), none⟩,
       s.erase N) := by
  unfold delete_file
  rw [h]

theorem delete_file_of_absent {s : Store} {N : String}
    (h : s.lookup N = none) :
    delete_file N s =
      (Except.ok ⟨404, Body.text ("File '" ++ N ++ "' not found"), none⟩, s) := by
  unfold delete_file
  rw [h]

/-! ### Claim theorems -/

/-- C1: Round-trip: for every name N and byte sequence B within the size
limit (and with no directory occupying N, so that the file creation
succeeds), performing upload(N,B) and then download(N) returns status
200 with a body exactly equal to B. -/
theorem upload_download_roundtrip (s : Store) (N : String) (B : Bytes)
    (hsize : B.length ≤ UPLOAD_LIMIT) (hdir : s.lookup N ≠ some Entry.dir) :
    ∃ r₁ s₁, upload_route B N s = (Except.ok r₁, s₁) ∧ r₁.status = 200 ∧
      ∃ r₂, download_file N s₁ = Except.ok r₂ ∧ r₂.status = 200 ∧
        r₂.body = Body.data B := by
  refine ⟨_, s.set N (Entry.file B), upload_route_ok B N s hsize hdir, rfl, ?_⟩
  exact ⟨_, download_file_of_file (Store.lookup_set_self s N (Entry.file B)), rfl, rfl⟩

/-- Witness for C1 at a concrete input: uploading bytes `[1, 2, 3]`
under name `a.txt` into the empty store and downloading them back. -/
theorem upload_download_roundtrip_witness :
    ([1, 2, 3] : Bytes).length ≤ UPLOAD_LIMIT ∧
    Store.lookup [] "a.txt" ≠ some Entry.dir ∧
    (∃ r₁ s₁, upload_route [1, 2, 3] "a.txt" [] = (Except.ok r₁, s₁) ∧
      r₁.status = 200 ∧
      ∃ r₂, download_file "a.txt" s₁ = Except.ok r₂ ∧ r₂.status = 200 ∧
        r₂.body = Body.data [1, 2, 3]) :=
  ⟨by decide, by decide,
   upload_download_roundtrip [] "a.txt" [1, 2, 3] (by decide) (by decide)⟩

/-- C2: Last write wins: upload(N,B1), then upload(N,B2), then
download(N) returns exactly B2; the second upload creates-or-truncates
(it neither appends nor fails). -/
theorem upload_overwrite_last_wins (s : Store) (N : String) (B₁ B₂ : Bytes)
    (h₁ : B₁.length ≤ UPLOAD_LIMIT) (h₂ : B₂.length ≤ UPLOAD_LIMIT)
    (hdir : s.lookup N ≠ some Entry.dir) :
    ∃ r₁ s₁ r₂ s₂, upload_route B₁ N s = (Except.ok r₁, s₁) ∧
      upload_route B₂ N s₁ = (Except.ok r₂, s₂) ∧
      s₂.lookup N = some (Entry.file B₂) ∧
      ∃ r₃, download_file N s₂ = Except.ok r₃ ∧ r₃.status = 200 ∧
        r₃.body = Body.data B₂ := by
  have hdir₁ : (s.set N (Entry.file B₁)).lookup N ≠ some Entry.dir := by
    rw [Store.lookup_set_self]
    intro h
    exact Entry.noConfusion (Option.some.inj h)
  refine ⟨_, s.set N (Entry.file B₁), _, (s.set N (Entry.file B₁)).set N (Entry.file B₂),
    upload_route_ok B₁ N s h₁ hdir, upload_route_ok B₂ N _ h₂ hdir₁, ?_, ?_⟩
  · exact Store.lookup_set_self _ N (Entry.file B₂)
  · exact ⟨_, download_file_of_file (Store.lookup_set_self _ N (Entry.file B₂)), rfl, rfl⟩

/-- Witness for C2 at a concrete input: uploading `[7]` then `[8, 9]`
under name `a.txt` and downloading `[8, 9]` back. -/
theorem upload_overwrite_last_wins_witness :
    ([7] : Bytes).length ≤ UPLOAD_LIMIT ∧
    ([8, 9] : Bytes).length ≤ UPLOAD_LIMIT ∧
    Store.lookup [] "a.txt" ≠ some Entry.dir ∧
    (∃ r₁ s₁ r₂ s₂, upload_route [7] "a.txt" [] = (Except.ok r₁, s₁) ∧
      upload_route [8, 9] "a.txt" s₁ = (Except.ok r₂, s₂) ∧
      s₂.lookup "a.txt" = some (Entry.file [8, 9]) ∧
      ∃ r₃, download_file "a.txt" s₂ = Except.ok r₃ ∧ r₃.status = 200 ∧
        r₃.body = Body.data [8, 9]) :=
  ⟨by decide, by decide, by decide,
   upload_overwrite_last_wins [] "a.txt" [7] [8, 9] (by decide) (by decide) (by decide)⟩

/-- C4: Not-found behavior: when N is absent, download(N) and delete(N)
both return 404 with body `File '<N>' not found`; and after upload(N,B)
then delete(N), a further download(N) and a second delete(N) both return
that same 404. -/
theorem notfound_download_delete (s : Store) (N : String) (B : Bytes)
    (hsize : B.length ≤ UPLOAD_LIMIT) (hdir : s.lookup N ≠ some Entry.dir) :
    (s.lookup N = none →
      download_file N s =
        Except.ok ⟨404, Body.text ("File '" ++ N ++ "' not found"), none⟩ ∧
      delete_file N s =
        (Except.ok ⟨404, Body.text ("File '" ++ N ++ "' not found"), none⟩, s)) ∧
    ∃ r₁ s₁ r₂ s₂, upload_route B N s = (Except.ok r₁, s₁) ∧
      delete_file N s₁ = (Except.ok r₂, s₂) ∧ r₂.status = 200 ∧
      download_file N s₂ =
        Except.ok ⟨404, Body.text ("File '" ++ N ++ "' not found"), none⟩ ∧
      delete_file N s₂ =
        (Except.ok ⟨404, Body.text ("File '" ++ N ++ "' not found"), none⟩, s₂) := by
  constructor
  · intro habs
    exact ⟨download_file_of_absent habs, delete_file_of_absent habs⟩
  · have hup := upload_route_ok B N s hsize hdir
    have hdel := delete_file_of_file (Store.lookup_set_self s N (Entry.file B))
    have herase := Store.lookup_erase_self (s.set N (Entry.file B)) N
    exact ⟨_, _, _, _, hup, hdel, rfl,
      download_file_of_absent herase, delete_file_of_absent herase⟩

/-- Witness for C4 at a concrete input: name `x.txt`, bytes `[5]`,
starting from the empty store. -/
theorem notfound_download_delete_witness :
    ([5] : Bytes).length ≤ UPLOAD_LIMIT ∧
    Store.lookup [] "x.txt" ≠ some Entry.dir ∧
    ((Store.lookup [] "x.txt" = none →
      download_file "x.txt" [] =
        Except.ok ⟨404, Body.text ("File '" ++ "x.txt" ++ "' not found"), none⟩ ∧
      delete_file "x.txt" [] =
        (Except.ok ⟨404, Body.text ("File '" ++ "x.txt" ++ "' not found"), none⟩, [])) ∧
    ∃ r₁ s₁ r₂ s₂, upload_route [5] "x.txt" [] = (Except.ok r₁, s₁) ∧
      delete_file "x.txt" s₁ = (Except.ok r₂, s₂) ∧ r₂.status = 200 ∧
      download_file "x.txt" s₂ =
        Except.ok ⟨404, Body.text ("File '" ++ "x.txt" ++ "' not found"), none⟩ ∧
      delete_file "x.txt" s₂ =
        (Except.ok ⟨404, Body.text ("File '" ++ "x.txt" ++ "' not found"), none⟩, s₂)) :=
  ⟨by decide, by decide,
   notfound_download_delete [] "x.txt" [5] (by decide) (by decide)⟩

/-- C5: Error translator: each rejection token maps to exactly the
specified status/message pair, and no other pair is ever produced. -/
theorem handle_rejection_exhaustive :
    handle_rejection Rejection.notFoundRoute = (404, "Not Found") ∧
    handle_rejection Rejection.fileError = (500, "File operation error") ∧
    handle_rejection Rejection.bodyDeserialize = (400, "Invalid body") ∧
    handle_rejection Rejection.payloadTooLarge = (400, "Payload too large") ∧
    handle_rejection Rejection.other = (500, "Internal Server Error") ∧
    ∀ r : Rejection,
      handle_rejection r = (404, "Not Found") ∨
      handle_rejection r = (500, "File operation error") ∨
      handle_rejection r = (400, "Invalid body") ∨
      handle_rejection r = (400, "Payload too large") ∨
      handle_rejection r = (500, "Internal Server Error") := by
  refine ⟨rfl, rfl, rfl, rfl, rfl, ?_⟩
  intro r
  cases r with
  | notFoundRoute => exact Or.inl rfl
  | fileError => exact Or.inr (Or.inl rfl)
  | bodyDeserialize => exact Or.inr (Or.inr (Or.inl rfl))
  | payloadTooLarge => exact Or.inr (Or.inr (Or.inr (Or.inl rfl)))
  | other => exact Or.inr (Or.inr (Or.inr (Or.inr rfl)))

/-- C6: Oversized upload: a body strictly larger than 100 MiB is
rejected with the payload-too-large token, translated to 400
"Payload too large", and the store is returned unchanged. -/
theorem oversized_upload_rejected (s : Store) (N : String) (B : Bytes)
    (hbig : UPLOAD_LIMIT < B.length) :
    upload_route B N s = (Except.error Rejection.payloadTooLarge, s) ∧
    handle_rejection Rejection.payloadTooLarge = (400, "Payload too large") := by
  refine ⟨?_, rfl⟩
  unfold upload_route
  rw [if_pos hbig]

/-- Witness for C6 at a concrete input: a body of `UPLOAD_LIMIT + 1`
zero bytes against the empty store. -/
theorem oversized_upload_rejected_witness :
    UPLOAD_LIMIT < (List.replicate (UPLOAD_LIMIT + 1) 0 : Bytes).length ∧
    upload_route (List.replicate (UPLOAD_LIMIT + 1) 0) "big.bin" [] =
      (Except.error Rejection.payloadTooLarge, []) ∧
    handle_rejection Rejection.payloadTooLarge = (400, "Payload too large") :=
  ⟨by simp only [List.length_replicate]; omega,
   oversized_upload_rejected [] "big.bin" (List.replicate (UPLOAD_LIMIT + 1) 0)
     (by simp only [List.length_replicate]; omega)⟩

/-- C8: Content-Disposition fallback: a successful download of name N
always succeeds with the file's bytes and carries
`attachment; filename="<N>"` when that string is a valid header value,
and exactly the generic `attachment` value otherwise. -/
theorem download_content_disposition (s : Store) (N : String) (B : Bytes)
    (h : s.lookup N = some (Entry.file B)) :
    download_file N s =
      Except.ok ⟨200, Body.data B,
        some (if isValidHeaderValue ("attachment; filename=\"" ++ N ++ "\"")
              then "attachment; filename=\"" ++ N ++ "\"" else "attachment")⟩ := by
  unfold download_file
  rw [h]
  rfl

/-- Witness for C8 at a concrete input: downloading `hi.txt` from a
one-file store; the header value is the filename form (which is valid). -/
theorem download_content_disposition_witness :
    Store.lookup [("hi.txt", Entry.file [104, 105])] "hi.txt" =
      some (Entry.file [104, 105]) ∧
    download_file "hi.txt" [("hi.txt", Entry.file [104, 105])] =
      Except.ok ⟨200, Body.data [104, 105],
        some (if isValidHeaderValue ("attachment; filename=\"" ++ "hi.txt" ++ "\"")
              then "attachment; filename=\"" ++ "hi.txt" ++ "\"" else "attachment")⟩ :=
  ⟨by decide,
   download_content_disposition [("hi.txt", Entry.file [104, 105])] "hi.txt"
     [104, 105] (by decide)⟩

/-- C10: A directory occupying a requested name: download(N) and
delete(N) do not return 404; the existence check passes, the read
(respectively remove) fails, and the rejection is the file-error token,
translated to 500 "File operation error". -/
theorem directory_name_file_error (s : Store) (N : String)
    (h : s.lookup N = some Entry.dir) :
    download_file N s = Except.error Rejection.fileError ∧
    delete_file N s = (Except.error Rejection.fileError, s) ∧
    handle_rejection Rejection.fileError = (500, "File operation error") := by
  refine ⟨?_, ?_, rfl⟩
  · unfold download_file
    rw [h]
  · unfold delete_file
    rw [h]

/-- Witness for C10 at a concrete input: a store holding a subdirectory
named `sub`. -/
theorem directory_name_file_error_witness :
    Store.lookup [("sub", Entry.dir)] "sub" = some Entry.dir ∧
    download_file "sub" [("sub", Entry.dir)] = Except.error Rejection.fileError ∧
    delete_file "sub" [("sub", Entry.dir)] =
      (Except.error Rejection.fileError, [("sub", Entry.dir)]) ∧
    handle_rejection Rejection.fileError = (500, "File operation error") :=
  ⟨by decide, directory_name_file_error [("sub", Entry.dir)] "sub" (by decide)⟩

/-! ### List-handler lemmas -/

/-- The name kept from one store pair by the listing: the name when the
entry is a regular file, nothing for a directory. -/
def fileNameOf (p : String × Entry) : Option String :=
  match p.2 with
  | Entry.file _ => some p.1
  | Entry.dir => none

theorem filterMap_storeDirItems (s : Store) :
    (storeDirItems s).filterMap dirItemName = s.filterMap fileNameOf := by
  induction s with
  | nil => rfl
  | cons p t ih =>
      obtain ⟨k, v⟩ := p
      cases v with
      | file b =>
          simpa [storeDirItems, dirItemName, fileNameOf, List.filterMap_cons] using ih
      | dir =>
          simpa [storeDirItems, dirItemName, fileNameOf, List.filterMap_cons] using ih

theorem mem_filterMap_fileNameOf {s : Store} {n : String} :
    n ∈ s.filterMap fileNameOf ↔ ∃ b, (n, Entry.file b) ∈ s := by
  rw [List.mem_filterMap]
  constructor
  · rintro ⟨⟨k, v⟩, hmem, hname⟩
    cases v with
    | file b =>
        simp only [fileNameOf, Option.some.injEq] at hname
        subst hname
        exact ⟨b, hmem⟩
    | dir => simp [fileNameOf] at hname
  · rintro ⟨b, hmem⟩
    exact ⟨(n, Entry.file b), hmem, rfl⟩

theorem filterMap_fileNameOf_sublist (s : Store) :
    List.Sublist (s.filterMap fileNameOf) (s.map Prod.fst) := by
  induction s with
  | nil => simp
  | cons p t ih =>
      obtain ⟨k, v⟩ := p
      cases v with
      | file b =>
          simpa [fileNameOf, List.filterMap_cons] using ih.cons₂ k
      | dir =>
          simpa [fileNameOf, List.filterMap_cons] using ih.cons k

theorem mem_list_files_iff_lookup {s : Store} (hwf : s.WF) (n : String) :
    n ∈ (List.insertionSort (· ≤ ·) ((storeDirItems s).filterMap dirItemName)) ↔
      ∃ b, s.lookup n = some (Entry.file b) := by
  rw [List.mem_insertionSort, filterMap_storeDirItems, mem_filterMap_fileNameOf]
  constructor
  · rintro ⟨b, hmem⟩
    exact ⟨b, Store.mem_lookup hwf hmem⟩
  · rintro ⟨b, hl⟩
    exact ⟨b, Store.lookup_mem hl⟩

/-- C3: List result: for every well-formed store, list() returns the
payload whose files array holds exactly the names bound to regular-file
entries, lexicographically sorted and without duplicates, and whose
count equals the array's length. -/
theorem list_files_sorted_count (s : Store) (hwf : s.WF) :
    ∃ names, list_files s = Except.ok ⟨names, names.length⟩ ∧
      List.Sorted (· ≤ ·) names ∧ names.Nodup ∧
      ∀ n, n ∈ names ↔ ∃ b, s.lookup n = some (Entry.file b) := by
  refine ⟨List.insertionSort (· ≤ ·) ((storeDirItems s).filterMap dirItemName),
    rfl, List.sorted_insertionSort _ _, ?_, mem_list_files_iff_lookup hwf⟩
  rw [(List.perm_insertionSort _ _).nodup_iff, filterMap_storeDirItems]
  exact List.Nodup.sublist (filterMap_fileNameOf_sublist s) hwf

/-- Witness for C3 at a concrete input: a store holding files `b`, `a`
and a subdirectory `d`, listed as `["a", "b"]` with count 2. -/
theorem list_files_sorted_count_witness :
    Store.WF [("b", Entry.file [2]), ("a", Entry.file [1]), ("d", Entry.dir)] ∧
    ∃ names,
      list_files [("b", Entry.file [2]), ("a", Entry.file [1]), ("d", Entry.dir)] =
        Except.ok ⟨names, names.length⟩ ∧
      List.Sorted (· ≤ ·) names ∧ names.Nodup ∧
      ∀ n, n ∈ names ↔
        ∃ b, Store.lookup [("b", Entry.file [2]), ("a", Entry.file [1]), ("d", Entry.dir)] n =
          some (Entry.file b) :=
  ⟨by decide,
   list_files_sorted_count [("b", Entry.file [2]), ("a", Entry.file [1]), ("d", Entry.dir)]
     (by decide)⟩

/-- C7: List invariant: every name in the listing of a well-formed store
is bound to a regular file directly inside the storage root, and a name
bound to a subdirectory never appears. -/
theorem list_files_only_regular (s : Store) (hwf : s.WF) :
    ∃ l, list_files s = Except.ok l ∧
      (∀ n, n ∈ l.files → ∃ b, s.lookup n = some (Entry.file b)) ∧
      (∀ n, s.lookup n = some Entry.dir → n ∉ l.files) := by
  refine ⟨⟨List.insertionSort (· ≤ ·) ((storeDirItems s).filterMap dirItemName), _⟩,
    rfl, ?_, ?_⟩
  · intro n hn
    exact (mem_list_files_iff_lookup hwf n).mp hn
  · intro n hdir hn
    obtain ⟨b, hb⟩ := (mem_list_files_iff_lookup hwf n).mp hn
    rw [hdir] at hb
    exact Entry.noConfusion (Option.some.inj hb)

/-- Witness for C7 at a concrete input: a store holding file `a` and
subdirectory `d`; `d` is absent from the listing. -/
theorem list_files_only_regular_witness :
    Store.WF [("a", Entry.file [1]), ("d", Entry.dir)] ∧
    ∃ l, list_files [("a", Entry.file [1]), ("d", Entry.dir)] = Except.ok l ∧
      (∀ n, n ∈ l.files →
        ∃ b, Store.lookup [("a", Entry.file [1]), ("d", Entry.dir)] n =
          some (Entry.file b)) ∧
      (∀ n, Store.lookup [("a", Entry.file [1]), ("d", Entry.dir)] n = some Entry.dir →
        n ∉ l.files) :=
  ⟨by decide, list_files_only_regular [("a", Entry.file [1]), ("d", Entry.dir)] (by decide)⟩

theorem filterMap_filter_isSome {α β : Type} (f : α → Option β) (l : List α) :
    (l.filter (fun a => (f a).isSome)).filterMap f = l.filterMap f := by
  induction l with
  | nil => rfl
  | cons a t ih =>
      cases hf : f a with
      | none => simp [List.filter_cons, List.filterMap_cons, hf, ih]
      | some b => simp [List.filter_cons, List.filterMap_cons, hf, ih]

/-- C9: The listing silently skips directory entries whose enumeration
errored or whose name is not valid UTF-8: such items contribute no name,
dropping them leaves the result unchanged, a successful directory read
never yields an error, and only a failing directory read produces the
file-error rejection. -/
theorem list_files_skips_bad_entries :
    (∀ e, list_files_core (Except.error e) = Except.error Rejection.fileError) ∧
    (∀ items, ∃ l, list_files_core (Except.ok items) = Except.ok l) ∧
    (∀ b, dirItemName DirItem.ioError = none ∧
      dirItemName (DirItem.entry none b) = none) ∧
    (∀ items, list_files_core
        (Except.ok (items.filter (fun it => (dirItemName it).isSome))) =
      list_files_core (Except.ok items)) := by
  refine ⟨fun e => rfl, fun items => ⟨_, rfl⟩, ?_, ?_⟩
  · intro b
    refine ⟨rfl, ?_⟩
    cases b <;> rfl
  · intro items
    simp only [list_files_core, filterMap_filter_isSome]
